import Mathlib

/- Verification of the trajectory-optimization core in
   src/include/fpgm_collocation.h (flat-plate glider model with
   trapezoidal collocation).  The C++ functions are shallowly embedded:
   Eigen 2-vectors become ℝ × ℝ, `double` becomes ℝ, the caller-supplied
   result buffer of the constraint callback becomes a function ℕ → ℝ that
   is updated pointwise, and `std::vector<double>` becomes `List ℝ`. -/

set_option maxHeartbeats 1000000

noncomputable section

namespace fpgm_collocation

/-- Physical parameters of the flat-plate glider model
(struct `fpgm_param`, lines 74-83 of fpgm_collocation.h). -/
structure fpgm_param where
  l_w : ℝ
  l_e : ℝ
  l : ℝ
  s_w : ℝ
  s_e : ℝ
  mass : ℝ
  I : ℝ
  h : ℝ
  Q : Matrix (Fin 7) (Fin 7) ℝ
  R : ℝ

/-- Box limits and position-target sequences
(struct `optimization_constrain`, lines 85-94). -/
structure optimization_constrain where
  v_c : ℝ
  t_c : ℝ
  p_c : ℝ
  td_c : ℝ
  pd_c : ℝ
  ix : List ℝ
  iz : List ℝ

/-- Lift coefficient of the flat plate (line 102). -/
def cl (aoa : ℝ) : ℝ := 2 * Real.sin aoa * Real.cos aoa

/-- Drag coefficient of the flat plate (line 104). -/
def cd (aoa : ℝ) : ℝ := 2 * Real.sin aoa ^ 2

/-- Two dimensional cross product (line 106). -/
def two_d_cross (v1 v2 : ℝ × ℝ) : ℝ := v1.1 * v2.2 - v1.2 * v2.1

/-- Velocity of the wing geometric centroid (lines 137-139). -/
def x_w_dot (l_w xdot zdot theta thetadot : ℝ) : ℝ × ℝ :=
  (xdot + l_w * thetadot * Real.sin theta,
   zdot - l_w * thetadot * Real.cos theta)

/-- Velocity of the elevator geometric centroid (lines 140-142). -/
def x_e_dot (l l_e xdot zdot theta phi thetadot phidot : ℝ) : ℝ × ℝ :=
  (xdot + l * thetadot * Real.sin theta + l_e * (thetadot + phidot) * Real.sin (theta + phi),
   zdot - l * thetadot * Real.cos theta - l_e * (thetadot + phidot) * Real.cos (theta + phi))

/-- Wing angle of attack (line 144): a single-argument arctangent of the
ratio of the centroid-velocity components. -/
def alpha_w (l_w theta xdot zdot thetadot : ℝ) : ℝ :=
  theta - Real.arctan ((x_w_dot l_w xdot zdot theta thetadot).2 /
    (x_w_dot l_w xdot zdot theta thetadot).1)

/-- Elevator angle of attack (line 145). -/
def alpha_e (l l_e theta phi xdot zdot thetadot phidot : ℝ) : ℝ :=
  theta + phi - Real.arctan ((x_e_dot l l_e xdot zdot theta phi thetadot phidot).2 /
    (x_e_dot l l_e xdot zdot theta phi thetadot phidot).1)

/-- The glider dynamics `fpgm_dynamics` (lines 118-170): time derivative of
the 7-state.  The surface-centroid positions `x_w`, `x_e` are computed but
never used afterwards, exactly as in the source. -/
def fpgm_dynamics (x z theta phi xdot zdot thetadot phidot : ℝ)
    (parameter : fpgm_param) : Fin 7 → ℝ :=
  let g : ℝ := 9.81
  let p : ℝ := 1.225
  let n_w : ℝ × ℝ := (-Real.sin theta, Real.cos theta)
  let n_e : ℝ × ℝ := (-Real.sin (theta + phi), Real.cos (theta + phi))
  let x_w : ℝ × ℝ :=
    (x - parameter.l_w * Real.cos theta,
     z - parameter.l_w * Real.sin theta)
  let x_e : ℝ × ℝ :=
    (x - parameter.l * Real.cos theta - parameter.l_e * Real.cos (theta + phi),
     z - parameter.l * Real.sin theta - parameter.l_e * Real.sin (theta + phi))
  let xwd : ℝ × ℝ := x_w_dot parameter.l_w xdot zdot theta thetadot
  let xed : ℝ × ℝ := x_e_dot parameter.l parameter.l_e xdot zdot theta phi thetadot phidot
  let aw : ℝ := alpha_w parameter.l_w theta xdot zdot thetadot
  let ae : ℝ := alpha_e parameter.l parameter.l_e theta phi xdot zdot thetadot phidot
  let force_w : ℝ × ℝ :=
    (0.5 * p * (xwd.1 ^ 2 + xwd.2 ^ 2) * parameter.s_w * (cl aw + cd aw) * n_w.1,
     0.5 * p * (xwd.1 ^ 2 + xwd.2 ^ 2) * parameter.s_w * (cl aw + cd aw) * n_w.2)
  let force_e : ℝ × ℝ :=
    (0.5 * p * (xed.1 ^ 2 + xed.2 ^ 2) * parameter.s_e * (cl ae + cd ae) * n_e.1,
     0.5 * p * (xed.1 ^ 2 + xed.2 ^ 2) * parameter.s_e * (cl ae + cd ae) * n_e.2)
  let pos_dotdot : ℝ × ℝ :=
    ((force_w.1 + force_e.1 - 0) / parameter.mass,
     (force_w.2 + force_e.2 - parameter.mass * g) / parameter.mass)
  let theta_dotdot : ℝ :=
    (two_d_cross (parameter.l_w, 0) force_w +
     two_d_cross (-parameter.l - parameter.l_e * Real.cos theta,
                  -parameter.l + parameter.l_e * Real.sin theta) force_e) / parameter.I
  ![xdot, zdot, thetadot, phidot, pos_dotdot.1, pos_dotdot.2, theta_dotdot]

/-- Write a symmetric pair of inequality residuals (lines 181-186):
`result[index] = -x - bound` and `result[index+1] = x - bound`, so that both
are `≤ 0` exactly when `-bound ≤ x ≤ bound`. -/
def set_bounded_constrains (result : ℕ → ℝ) (index : ℕ) (x bound : ℝ) : ℕ → ℝ :=
  fun k => if k = index then -x - bound else if k = index + 1 then x - bound else result k

/-- The trapezoidal collocation defect for the knot pair `(i, i+1)`
(lines 236-262): `x_k - x_k_1 + h/2 * (f_k + f_k_1)`. -/
def single_results_vector (fpgm : fpgm_param) (x : ℕ → ℝ) (i : ℕ) : Fin 7 → ℝ :=
  let f_k := fpgm_dynamics (x (0+8*i)) (x (1+8*i)) (x (2+8*i)) (x (3+8*i))
    (x (4+8*i)) (x (5+8*i)) (x (6+8*i)) (x (7+8*i)) fpgm
  let f_k_1 := fpgm_dynamics (x (0+8*(i+1))) (x (1+8*(i+1))) (x (2+8*(i+1))) (x (3+8*(i+1)))
    (x (4+8*(i+1))) (x (5+8*(i+1))) (x (6+8*(i+1))) (x (7+8*(i+1))) fpgm
  fun j => x ((j : ℕ) + 8*i) - x ((j : ℕ) + 8*(i+1)) + fpgm.h / 2 * (f_k j + f_k_1 j)

/-- The dynamic-feasibility section of knot `i`'s residual block
(lines 280-288, the loop `for j = 0..6` unrolled): pair `j` lands at
indices `j*2 + i*26` and `j*2 + i*26 + 1`, with tolerance 0.01. -/
def dyn_writes (fpgm : fpgm_param) (x : ℕ → ℝ) (i : ℕ) (result : ℕ → ℝ) : ℕ → ℝ :=
  let srv := single_results_vector fpgm x i
  let r0 := set_bounded_constrains result (0*2 + i*26) (srv 0) 0.01
  let r1 := set_bounded_constrains r0 (1*2 + i*26) (srv 1) 0.01
  let r2 := set_bounded_constrains r1 (2*2 + i*26) (srv 2) 0.01
  let r3 := set_bounded_constrains r2 (3*2 + i*26) (srv 3) 0.01
  let r4 := set_bounded_constrains r3 (4*2 + i*26) (srv 4) 0.01
  let r5 := set_bounded_constrains r4 (5*2 + i*26) (srv 5) 0.01
  set_bounded_constrains r5 (6*2 + i*26) (srv 6) 0.01

/-- The box-constraint section of knot `i`'s residual block (lines 291-304):
theta, phi, vx, vz, thetadot, phidot bounds at offsets 14..25 of the block. -/
def box_writes (boundary : optimization_constrain) (x : ℕ → ℝ) (i : ℕ)
    (result : ℕ → ℝ) : ℕ → ℝ :=
  let r0 := set_bounded_constrains result (0 + 14 + i*26) (x (2 + i*8)) boundary.t_c
  let r1 := set_bounded_constrains r0 (2 + 14 + i*26) (x (3 + i*8)) boundary.p_c
  let r2 := set_bounded_constrains r1 (4 + 14 + i*26) (x (4 + i*8)) boundary.v_c
  let r3 := set_bounded_constrains r2 (6 + 14 + i*26) (x (5 + i*8)) boundary.v_c
  let r4 := set_bounded_constrains r3 (8 + 14 + i*26) (x (6 + i*8)) boundary.td_c
  set_bounded_constrains r4 (10 + 14 + i*26) (x (7 + i*8)) boundary.pd_c

/-- One iteration of the knot loop (lines 222-305): the dynamics defects are
only written when the knot has a successor (`i < N - 1`, line 233), the box
constraints are written for every knot. -/
def knot_loop_body (fpgm : fpgm_param) (boundary : optimization_constrain)
    (x : ℕ → ℝ) (N i : ℕ) (result : ℕ → ℝ) : ℕ → ℝ :=
  box_writes boundary x i (if i < N - 1 then dyn_writes fpgm x i result else result)

/-- The first `m` iterations of the knot loop (generalised for induction;
the loop itself runs `m = N` iterations). -/
def knot_loop_iter (fpgm : fpgm_param) (boundary : optimization_constrain)
    (x : ℕ → ℝ) (N m : ℕ) (result : ℕ → ℝ) : ℕ → ℝ :=
  (List.range m).foldl (fun r i => knot_loop_body fpgm boundary x N i r) result

/-- The knot loop of `collocation_eq_constraints` (lines 222-305). -/
def knot_constraints_loop (fpgm : fpgm_param) (boundary : optimization_constrain)
    (x : ℕ → ℝ) (N : ℕ) (result : ℕ → ℝ) : ℕ → ℝ :=
  knot_loop_iter fpgm boundary x N N result

/-- The full inequality-constraint callback `collocation_eq_constraints`
(lines 208-314).  `n` is the decision-vector length; the anchor pairs for
`x[0]` and `x[1]` are written at indices `N*26 ..  N*26+3` (lines 307-308). -/
def collocation_eq_constraints (result : ℕ → ℝ) (n : ℕ) (x : ℕ → ℝ)
    (fpgm : fpgm_param) (boundary : optimization_constrain) : ℕ → ℝ :=
  let state_input_length := n / 8
  let r := knot_constraints_loop fpgm boundary x state_input_length result
  let r2 := set_bounded_constrains r (0 + state_input_length*26) (x 0) (boundary.ix.getD 0 0)
  set_bounded_constrains r2 (2 + state_input_length*26) (x 1) (boundary.iz.getD 0 0)

/-- The inequality-constraint block size configured by the optimization
driver (line 502): `int inequality_dimension = 4 + N * 26;`. -/
def inequality_dimension (N : ℕ) : ℕ := 4 + N * 26

/- ### The cost evaluator -/

/-- The 7-state slice of knot `i` of the decision vector (lines 338-342). -/
def state_of (x : ℕ → ℝ) (i : ℕ) : Fin 7 → ℝ :=
  ![x (0+8*i), x (1+8*i), x (2+8*i), x (3+8*i), x (4+8*i), x (5+8*i), x (6+8*i)]

/-- Knot `i`'s contribution `x1ᵀ Q x1 + u R u` to the running cost
(lines 344-348). -/
def knot_cost (fpgm : fpgm_param) (x : ℕ → ℝ) (i : ℕ) : ℝ :=
  Matrix.dotProduct (state_of x i) (fpgm.Q.mulVec (state_of x i)) +
    x (7+8*i) * fpgm.R * x (7+8*i)

/-- The cost callback `control_effort_objective` (lines 317-355).
`1E6` is written `1000000`. -/
def control_effort_objective (n : ℕ) (x : ℕ → ℝ) (fpgm : fpgm_param)
    (boundary : optimization_constrain) : ℝ :=
  let factor := fpgm.h
  let state_input_length := n / 8
  let cost := (List.range state_input_length).foldl
    (fun cost i =>
      let x1 := state_of x i
      let state_term := Matrix.dotProduct x1 (fpgm.Q.mulVec x1)
      let input_term := x (7+8*i) * fpgm.R * x (7+8*i)
      cost + (state_term + input_term)) 0
  let start_constrain := |x 0 - boundary.ix.getD 0 0| + |x 1 - boundary.iz.getD 0 0|
  cost * factor + 1000000 * start_constrain

/- ### The loader and the optimization driver -/

/-- The mutable members of class `fpgm_collocation` that the loader and the
driver touch: the stored guess and the knot count `N` (lines 197-199). -/
structure loader_state where
  guess : List ℝ
  N : ℕ

/-- The trajectory result struct `control_state` (lines 359-368). -/
structure control_state where
  x : List ℝ
  z : List ℝ
  theta : List ℝ
  phi : List ℝ
  vx : List ℝ
  vz : List ℝ

/-- The loader `load_initial_guess` (lines 404-413).  The C code tests
`remainder((int)x.size(), 8)`, which is non-zero exactly when the size is
not a multiple of 8 (modelled as `x.length % 8 ≠ 0`); note that the member
`guess` is assigned before the test. -/
def load_initial_guess (s : loader_state) (x : List ℝ) : loader_state × Bool :=
  let s1 : loader_state := ⟨x, s.N⟩
  if x.length % 8 ≠ 0 then (s1, false)
  else (⟨x, x.length / 8⟩, true)

/-- The optimization driver `nlopt_optimization` (lines 463-568).  The NLopt
solver is an external library, abstracted here as a function `solver` from
the seeded decision vector to the decision vector it returns.  An empty
guess returns the default-initialized result before the solver is even
configured (lines 465-467); otherwise the result is decoded knot by knot
(lines 555-563). -/
def nlopt_optimization (solver : List ℝ → List ℝ) (s : loader_state) : control_state :=
  if s.guess.isEmpty then ⟨[], [], [], [], [], []⟩
  else
    let x := solver s.guess
    ⟨(List.range s.N).map (fun i => x.getD (0+i*8) 0),
     (List.range s.N).map (fun i => x.getD (1+i*8) 0),
     (List.range s.N).map (fun i => x.getD (2+i*8) 0),
     (List.range s.N).map (fun i => x.getD (3+i*8) 0),
     (List.range s.N).map (fun i => x.getD (4+i*8) 0),
     (List.range s.N).map (fun i => x.getD (5+i*8) 0)⟩

/- ### Definitions for the claim statements, witnesses and counterexamples -/

/-- Modelled from the wording of claim C3: a flat-plate surface force of
magnitude ½·1.225·|v|²·S·(2·sin α·cos α + 2·sin²α), directed along the
surface normal `nrm`. -/
def surface_force_spec (v : ℝ × ℝ) (S alpha : ℝ) (nrm : ℝ × ℝ) : ℝ × ℝ :=
  ((1/2) * 1.225 * (v.1^2 + v.2^2) * S *
      (2 * Real.sin alpha * Real.cos alpha + 2 * Real.sin alpha ^ 2) * nrm.1,
   (1/2) * 1.225 * (v.1^2 + v.2^2) * S *
      (2 * Real.sin alpha * Real.cos alpha + 2 * Real.sin alpha ^ 2) * nrm.2)

/-- Positive definiteness of the state-cost weight matrix, phrased with the
quadratic form the cost evaluator computes. -/
def quad_pos_def (Q : Matrix (Fin 7) (Fin 7) ℝ) : Prop :=
  ∀ v : Fin 7 → ℝ, v ≠ 0 → 0 < Matrix.dotProduct v (Q.mulVec v)

/-- Concrete glider parameters (the end-to-end scenario of the spec):
`l_w, l_e, l, s_w, s_e, mass, I, h, Q, R`. -/
def test_param : fpgm_param := ⟨0.1, 0.05, 0.15, 0.02, 0.01, 0.1, 0.001, 0.1, 1, 1⟩

/-- Concrete boundary data: `v_c, t_c, p_c, td_c, pd_c, ix, iz`. -/
def test_boundary : optimization_constrain := ⟨5, 1, 1, 5, 5, [0], [1]⟩

/-- Boundary data with negative position targets, used to refute claim C4. -/
def cex_boundary : optimization_constrain := ⟨5, 1, 1, 5, 5, [-1], [-1]⟩

/-- A positive-definite Q coupling state components 2 and 3, used to refute
claim C7 for state components. -/
def cex_Q : Matrix (Fin 7) (Fin 7) ℝ :=
  Matrix.of fun a b =>
    if a = b then 1 else if (a = 2 ∧ b = 3) ∨ (a = 3 ∧ b = 2) then -(9/10) else 0

/-- Parameters with Q = `cex_Q`, h = 1, R = 1. -/
def cex_param : fpgm_param := ⟨0.1, 0.05, 0.15, 0.02, 0.01, 0.1, 0.001, 1, cex_Q, 1⟩

/-- Boundary data with zero position targets. -/
def cex7_boundary : optimization_constrain := ⟨5, 1, 1, 5, 5, [0], [0]⟩

/-- Decision vector (N = 1) with state component 2 equal to 0. -/
def cex_xa : ℕ → ℝ := fun k => if k = 3 then 1 else 0

/-- Decision vector (N = 1) identical to `cex_xa` except that state
component 2 is 1/2 instead of 0. -/
def cex_xb : ℕ → ℝ := fun k => if k = 2 then 1/2 else if k = 3 then 1 else 0

/- ### Pointwise lookup and frame lemmas for the residual buffer -/

lemma sbc_lo (r : ℕ → ℝ) (idx : ℕ) (v b : ℝ) :
    set_bounded_constrains r idx v b idx = -v - b := by
  simp [set_bounded_constrains]

lemma sbc_hi (r : ℕ → ℝ) (idx : ℕ) (v b : ℝ) :
    set_bounded_constrains r idx v b (idx + 1) = v - b := by
  simp [set_bounded_constrains]

lemma sbc_other (r : ℕ → ℝ) (idx : ℕ) (v b : ℝ) (k : ℕ)
    (h1 : k ≠ idx) (h2 : k ≠ idx + 1) :
    set_bounded_constrains r idx v b k = r k := by
  simp [set_bounded_constrains, h1, h2]

lemma dyn_writes_lo (fpgm : fpgm_param) (x : ℕ → ℝ) (i : ℕ) (r : ℕ → ℝ)
    (j : ℕ) (hj : j < 7) :
    dyn_writes fpgm x i r (j*2 + i*26) =
      -(single_results_vector fpgm x i ⟨j, hj⟩) - 0.01 := by
  unfold dyn_writes
  interval_cases j <;>
    (repeat rw [sbc_other _ _ _ _ _ (by omega) (by omega)]) <;> rw [sbc_lo] <;> rfl

lemma dyn_writes_hi (fpgm : fpgm_param) (x : ℕ → ℝ) (i : ℕ) (r : ℕ → ℝ)
    (j : ℕ) (hj : j < 7) :
    dyn_writes fpgm x i r (j*2 + i*26 + 1) =
      single_results_vector fpgm x i ⟨j, hj⟩ - 0.01 := by
  unfold dyn_writes
  interval_cases j <;>
    (repeat rw [sbc_other _ _ _ _ _ (by omega) (by omega)]) <;> rw [sbc_hi] <;> rfl

lemma dyn_writes_frame (fpgm : fpgm_param) (x : ℕ → ℝ) (i : ℕ) (r : ℕ → ℝ)
    (k : ℕ) (hk : k < i*26 ∨ 14 + i*26 ≤ k) :
    dyn_writes fpgm x i r k = r k := by
  unfold dyn_writes
  repeat rw [sbc_other _ _ _ _ _ (by omega) (by omega)]

lemma box_writes_theta_lo (boundary : optimization_constrain) (x : ℕ → ℝ) (i : ℕ) (r : ℕ → ℝ) :
    box_writes boundary x i r (0 + 14 + i*26) = -(x (2 + i*8)) - boundary.t_c := by
  unfold box_writes
  repeat rw [sbc_other _ _ _ _ _ (by omega) (by omega)]
  rw [sbc_lo]

lemma box_writes_theta_hi (boundary : optimization_constrain) (x : ℕ → ℝ) (i : ℕ) (r : ℕ → ℝ) :
    box_writes boundary x i r (0 + 14 + i*26 + 1) = x (2 + i*8) - boundary.t_c := by
  unfold box_writes
  repeat rw [sbc_other _ _ _ _ _ (by omega) (by omega)]
  rw [sbc_hi]

lemma box_writes_phi_lo (boundary : optimization_constrain) (x : ℕ → ℝ) (i : ℕ) (r : ℕ → ℝ) :
    box_writes boundary x i r (2 + 14 + i*26) = -(x (3 + i*8)) - boundary.p_c := by
  unfold box_writes
  repeat rw [sbc_other _ _ _ _ _ (by omega) (by omega)]
  rw [sbc_lo]

lemma box_writes_phi_hi (boundary : optimization_constrain) (x : ℕ → ℝ) (i : ℕ) (r : ℕ → ℝ) :
    box_writes boundary x i r (2 + 14 + i*26 + 1) = x (3 + i*8) - boundary.p_c := by
  unfold box_writes
  repeat rw [sbc_other _ _ _ _ _ (by omega) (by omega)]
  rw [sbc_hi]

lemma box_writes_vx_lo (boundary : optimization_constrain) (x : ℕ → ℝ) (i : ℕ) (r : ℕ → ℝ) :
    box_writes boundary x i r (4 + 14 + i*26) = -(x (4 + i*8)) - boundary.v_c := by
  unfold box_writes
  repeat rw [sbc_other _ _ _ _ _ (by omega) (by omega)]
  rw [sbc_lo]

lemma box_writes_vx_hi (boundary : optimization_constrain) (x : ℕ → ℝ) (i : ℕ) (r : ℕ → ℝ) :
    box_writes boundary x i r (4 + 14 + i*26 + 1) = x (4 + i*8) - boundary.v_c := by
  unfold box_writes
  repeat rw [sbc_other _ _ _ _ _ (by omega) (by omega)]
  rw [sbc_hi]

lemma box_writes_vz_lo (boundary : optimization_constrain) (x : ℕ → ℝ) (i : ℕ) (r : ℕ → ℝ) :
    box_writes boundary x i r (6 + 14 + i*26) = -(x (5 + i*8)) - boundary.v_c := by
  unfold box_writes
  repeat rw [sbc_other _ _ _ _ _ (by omega) (by omega)]
  rw [sbc_lo]

lemma box_writes_vz_hi (boundary : optimization_constrain) (x : ℕ → ℝ) (i : ℕ) (r : ℕ → ℝ) :
    box_writes boundary x i r (6 + 14 + i*26 + 1) = x (5 + i*8) - boundary.v_c := by
  unfold box_writes
  repeat rw [sbc_other _ _ _ _ _ (by omega) (by omega)]
  rw [sbc_hi]

lemma box_writes_td_lo (boundary : optimization_constrain) (x : ℕ → ℝ) (i : ℕ) (r : ℕ → ℝ) :
    box_writes boundary x i r (8 + 14 + i*26) = -(x (6 + i*8)) - boundary.td_c := by
  unfold box_writes
  repeat rw [sbc_other _ _ _ _ _ (by omega) (by omega)]
  rw [sbc_lo]

lemma box_writes_td_hi (boundary : optimization_constrain) (x : ℕ → ℝ) (i : ℕ) (r : ℕ → ℝ) :
    box_writes boundary x i r (8 + 14 + i*26 + 1) = x (6 + i*8) - boundary.td_c := by
  unfold box_writes
  repeat rw [sbc_other _ _ _ _ _ (by omega) (by omega)]
  rw [sbc_hi]

lemma box_writes_pd_lo (boundary : optimization_constrain) (x : ℕ → ℝ) (i : ℕ) (r : ℕ → ℝ) :
    box_writes boundary x i r (10 + 14 + i*26) = -(x (7 + i*8)) - boundary.pd_c := by
  unfold box_writes
  rw [sbc_lo]

lemma box_writes_pd_hi (boundary : optimization_constrain) (x : ℕ → ℝ) (i : ℕ) (r : ℕ → ℝ) :
    box_writes boundary x i r (10 + 14 + i*26 + 1) = x (7 + i*8) - boundary.pd_c := by
  unfold box_writes
  rw [sbc_hi]

lemma box_writes_frame (boundary : optimization_constrain) (x : ℕ → ℝ) (i : ℕ) (r : ℕ → ℝ)
    (k : ℕ) (hk : k < 14 + i*26 ∨ 26 + i*26 ≤ k) :
    box_writes boundary x i r k = r k := by
  unfold box_writes
  repeat rw [sbc_other _ _ _ _ _ (by omega) (by omega)]

lemma knot_loop_body_frame (fpgm : fpgm_param) (boundary : optimization_constrain)
    (x : ℕ → ℝ) (N i : ℕ) (r : ℕ → ℝ) (k : ℕ)
    (hk : k < i*26 ∨ 26 + i*26 ≤ k) :
    knot_loop_body fpgm boundary x N i r k = r k := by
  unfold knot_loop_body
  rw [box_writes_frame _ _ _ _ _ (by omega)]
  by_cases hc : i < N - 1
  · rw [if_pos hc, dyn_writes_frame _ _ _ _ _ (by omega)]
  · rw [if_neg hc]

lemma knot_loop_iter_succ (fpgm : fpgm_param) (boundary : optimization_constrain)
    (x : ℕ → ℝ) (N m : ℕ) (result : ℕ → ℝ) :
    knot_loop_iter fpgm boundary x N (m+1) result =
      knot_loop_body fpgm boundary x N m (knot_loop_iter fpgm boundary x N m result) := by
  unfold knot_loop_iter
  rw [List.range_succ, List.foldl_append, List.foldl_cons, List.foldl_nil]

lemma knot_loop_iter_frame (fpgm : fpgm_param) (boundary : optimization_constrain)
    (x : ℕ → ℝ) (N m : ℕ) (result : ℕ → ℝ) (k : ℕ) (hk : 26*m ≤ k) :
    knot_loop_iter fpgm boundary x N m result k = result k := by
  induction m with
  | zero => rfl
  | succ m ih =>
      rw [knot_loop_iter_succ, knot_loop_body_frame _ _ _ _ _ _ _ (by omega)]
      exact ih (by omega)

lemma knot_loop_iter_block (fpgm : fpgm_param) (boundary : optimization_constrain)
    (x : ℕ → ℝ) (N m i k : ℕ) (result : ℕ → ℝ)
    (hi : i < m) (hk1 : i*26 ≤ k) (hk2 : k < 26 + i*26) :
    knot_loop_iter fpgm boundary x N m result k =
      knot_loop_body fpgm boundary x N i (knot_loop_iter fpgm boundary x N i result) k := by
  induction m with
  | zero => omega
  | succ m ih =>
      rcases Nat.lt_succ_iff_lt_or_eq.mp hi with h | h
      · rw [knot_loop_iter_succ, knot_loop_body_frame _ _ _ _ _ _ _ (by omega)]
        exact ih h
      · subst h
        rw [knot_loop_iter_succ]

lemma colloc_unfold (n : ℕ) (x result : ℕ → ℝ) (fpgm : fpgm_param)
    (boundary : optimization_constrain) :
    collocation_eq_constraints result n x fpgm boundary =
      set_bounded_constrains
        (set_bounded_constrains (knot_loop_iter fpgm boundary x (n/8) (n/8) result)
          (0 + (n/8)*26) (x 0) (boundary.ix.getD 0 0))
        (2 + (n/8)*26) (x 1) (boundary.iz.getD 0 0) := rfl

/-- Nothing is written at or beyond index `4 + 26N`. -/
lemma colloc_frame (N n : ℕ) (hn : n = 8*N) (x result : ℕ → ℝ) (fpgm : fpgm_param)
    (boundary : optimization_constrain) (k : ℕ) (hk : 4 + 26*N ≤ k) :
    collocation_eq_constraints result n x fpgm boundary k = result k := by
  have h8 : n / 8 = N := by omega
  rw [colloc_unfold, h8,
      sbc_other _ _ _ _ _ (by omega) (by omega),
      sbc_other _ _ _ _ _ (by omega) (by omega),
      knot_loop_iter_frame _ _ _ _ _ _ _ (by omega)]

/-- The two anchor pairs written after all knot blocks (lines 307-308). -/
lemma colloc_anchor (N n : ℕ) (hn : n = 8*N) (x result : ℕ → ℝ) (fpgm : fpgm_param)
    (boundary : optimization_constrain) :
    collocation_eq_constraints result n x fpgm boundary (0 + N*26) =
      -(x 0) - boundary.ix.getD 0 0 ∧
    collocation_eq_constraints result n x fpgm boundary (0 + N*26 + 1) =
      x 0 - boundary.ix.getD 0 0 ∧
    collocation_eq_constraints result n x fpgm boundary (2 + N*26) =
      -(x 1) - boundary.iz.getD 0 0 ∧
    collocation_eq_constraints result n x fpgm boundary (2 + N*26 + 1) =
      x 1 - boundary.iz.getD 0 0 := by
  have h8 : n / 8 = N := by omega
  refine ⟨?_, ?_, ?_, ?_⟩
  · rw [colloc_unfold, h8, sbc_other _ _ _ _ _ (by omega) (by omega), sbc_lo]
  · rw [colloc_unfold, h8, sbc_other _ _ _ _ _ (by omega) (by omega), sbc_hi]
  · rw [colloc_unfold, h8, sbc_lo]
  · rw [colloc_unfold, h8, sbc_hi]

/-- The 12 box residuals of knot `i`'s block (lines 291-304), as they stand
in the finished residual buffer. -/
lemma colloc_box (N n : ℕ) (hn : n = 8*N) (x result : ℕ → ℝ) (fpgm : fpgm_param)
    (boundary : optimization_constrain) (i : ℕ) (hi : i < N) :
    collocation_eq_constraints result n x fpgm boundary (0 + 14 + i*26) =
      -(x (2 + i*8)) - boundary.t_c ∧
    collocation_eq_constraints result n x fpgm boundary (0 + 14 + i*26 + 1) =
      x (2 + i*8) - boundary.t_c ∧
    collocation_eq_constraints result n x fpgm boundary (2 + 14 + i*26) =
      -(x (3 + i*8)) - boundary.p_c ∧
    collocation_eq_constraints result n x fpgm boundary (2 + 14 + i*26 + 1) =
      x (3 + i*8) - boundary.p_c ∧
    collocation_eq_constraints result n x fpgm boundary (4 + 14 + i*26) =
      -(x (4 + i*8)) - boundary.v_c ∧
    collocation_eq_constraints result n x fpgm boundary (4 + 14 + i*26 + 1) =
      x (4 + i*8) - boundary.v_c ∧
    collocation_eq_constraints result n x fpgm boundary (6 + 14 + i*26) =
      -(x (5 + i*8)) - boundary.v_c ∧
    collocation_eq_constraints result n x fpgm boundary (6 + 14 + i*26 + 1) =
      x (5 + i*8) - boundary.v_c ∧
    collocation_eq_constraints result n x fpgm boundary (8 + 14 + i*26) =
      -(x (6 + i*8)) - boundary.td_c ∧
    collocation_eq_constraints result n x fpgm boundary (8 + 14 + i*26 + 1) =
      x (6 + i*8) - boundary.td_c ∧
    collocation_eq_constraints result n x fpgm boundary (10 + 14 + i*26) =
      -(x (7 + i*8)) - boundary.pd_c ∧
    collocation_eq_constraints result n x fpgm boundary (10 + 14 + i*26 + 1) =
      x (7 + i*8) - boundary.pd_c := by
  have h8 : n / 8 = N := by omega
  refine ⟨?_, ?_, ?_, ?_, ?_, ?_, ?_, ?_, ?_, ?_, ?_, ?_⟩ <;>
    (rw [colloc_unfold, h8,
         sbc_other _ _ _ _ _ (by omega) (by omega),
         sbc_other _ _ _ _ _ (by omega) (by omega),
         knot_loop_iter_block _ _ _ _ _ i _ _ hi (by omega) (by omega)]
     unfold knot_loop_body
     first
     | rw [box_writes_theta_lo] | rw [box_writes_theta_hi]
     | rw [box_writes_phi_lo] | rw [box_writes_phi_hi]
     | rw [box_writes_vx_lo] | rw [box_writes_vx_hi]
     | rw [box_writes_vz_lo] | rw [box_writes_vz_hi]
     | rw [box_writes_td_lo] | rw [box_writes_td_hi]
     | rw [box_writes_pd_lo] | rw [box_writes_pd_hi])

/-- The dynamics-defect pair `j` of knot `i`'s block (lines 280-288), as it
stands in the finished residual buffer. -/
lemma colloc_dyn (N n : ℕ) (hn : n = 8*N) (x result : ℕ → ℝ) (fpgm : fpgm_param)
    (boundary : optimization_constrain) (i j : ℕ) (hi : i < N - 1) (hj : j < 7) :
    collocation_eq_constraints result n x fpgm boundary (j*2 + i*26) =
      -(single_results_vector fpgm x i ⟨j, hj⟩) - 0.01 ∧
    collocation_eq_constraints result n x fpgm boundary (j*2 + i*26 + 1) =
      single_results_vector fpgm x i ⟨j, hj⟩ - 0.01 := by
  have h8 : n / 8 = N := by omega
  constructor
  · rw [colloc_unfold, h8,
        sbc_other _ _ _ _ _ (by omega) (by omega),
        sbc_other _ _ _ _ _ (by omega) (by omega),
        knot_loop_iter_block _ _ _ _ _ i _ _ (by omega) (by omega) (by omega)]
    unfold knot_loop_body
    rw [box_writes_frame _ _ _ _ _ (by omega), if_pos hi]
    exact dyn_writes_lo fpgm x i _ j hj
  · rw [colloc_unfold, h8,
        sbc_other _ _ _ _ _ (by omega) (by omega),
        sbc_other _ _ _ _ _ (by omega) (by omega),
        knot_loop_iter_block _ _ _ _ _ i _ _ (by omega) (by omega) (by omega)]
    unfold knot_loop_body
    rw [box_writes_frame _ _ _ _ _ (by omega), if_pos hi]
    exact dyn_writes_hi fpgm x i _ j hj

lemma cost_foldl (fpgm : fpgm_param) (x : ℕ → ℝ) (m : ℕ) (c : ℝ) :
    (List.range m).foldl
      (fun cost i =>
        let x1 := state_of x i
        let state_term := Matrix.dotProduct x1 (fpgm.Q.mulVec x1)
        let input_term := x (7+8*i) * fpgm.R * x (7+8*i)
        cost + (state_term + input_term)) c
      = c + ∑ i ∈ Finset.range m, knot_cost fpgm x i := by
  induction m with
  | zero => simp
  | succ m ih =>
      rw [List.range_succ, List.foldl_append, List.foldl_cons, List.foldl_nil, ih,
        Finset.sum_range_succ]
      simp only [knot_cost]
      ring

/-- Closed form of the cost callback. -/
lemma control_effort_objective_eq (n : ℕ) (x : ℕ → ℝ) (fpgm : fpgm_param)
    (boundary : optimization_constrain) :
    control_effort_objective n x fpgm boundary =
      (∑ i ∈ Finset.range (n / 8), knot_cost fpgm x i) * fpgm.h +
        1000000 * (|x 0 - boundary.ix.getD 0 0| + |x 1 - boundary.iz.getD 0 0|) := by
  show (List.range (n / 8)).foldl
      (fun cost i =>
        let x1 := state_of x i
        let state_term := Matrix.dotProduct x1 (fpgm.Q.mulVec x1)
        let input_term := x (7+8*i) * fpgm.R * x (7+8*i)
        cost + (state_term + input_term)) 0 * fpgm.h +
      1000000 * (|x 0 - boundary.ix.getD 0 0| + |x 1 - boundary.iz.getD 0 0|) = _
  rw [cost_foldl]
  ring

/- ### Claim theorems -/

/-- Claim C1: for every decision vector of length 8N (N ≥ 1), the residual
array of the constraint builder follows the sizing formula 4 + 26N — nothing
at or beyond index 4 + 26N is written, knot i's box residuals sit inside its
26-wide block at offset 26i, the anchor residuals are appended right after
the N knot blocks — and the driver configures its single
inequality-constraint block with exactly the count 4 + 26N. -/
theorem claim_C1 (N n : ℕ) (hN : 1 ≤ N) (hn : n = 8*N) (x result : ℕ → ℝ)
    (fpgm : fpgm_param) (boundary : optimization_constrain) :
    (∀ k, 4 + 26*N ≤ k → collocation_eq_constraints result n x fpgm boundary k = result k) ∧
    (∀ i, i < N →
      collocation_eq_constraints result n x fpgm boundary (0 + 14 + i*26) =
        -(x (2 + i*8)) - boundary.t_c ∧
      collocation_eq_constraints result n x fpgm boundary (0 + 14 + i*26 + 1) =
        x (2 + i*8) - boundary.t_c ∧
      collocation_eq_constraints result n x fpgm boundary (2 + 14 + i*26) =
        -(x (3 + i*8)) - boundary.p_c ∧
      collocation_eq_constraints result n x fpgm boundary (2 + 14 + i*26 + 1) =
        x (3 + i*8) - boundary.p_c ∧
      collocation_eq_constraints result n x fpgm boundary (4 + 14 + i*26) =
        -(x (4 + i*8)) - boundary.v_c ∧
      collocation_eq_constraints result n x fpgm boundary (4 + 14 + i*26 + 1) =
        x (4 + i*8) - boundary.v_c ∧
      collocation_eq_constraints result n x fpgm boundary (6 + 14 + i*26) =
        -(x (5 + i*8)) - boundary.v_c ∧
      collocation_eq_constraints result n x fpgm boundary (6 + 14 + i*26 + 1) =
        x (5 + i*8) - boundary.v_c ∧
      collocation_eq_constraints result n x fpgm boundary (8 + 14 + i*26) =
        -(x (6 + i*8)) - boundary.td_c ∧
      collocation_eq_constraints result n x fpgm boundary (8 + 14 + i*26 + 1) =
        x (6 + i*8) - boundary.td_c ∧
      collocation_eq_constraints result n x fpgm boundary (10 + 14 + i*26) =
        -(x (7 + i*8)) - boundary.pd_c ∧
      collocation_eq_constraints result n x fpgm boundary (10 + 14 + i*26 + 1) =
        x (7 + i*8) - boundary.pd_c) ∧
    (collocation_eq_constraints result n x fpgm boundary (0 + N*26) =
      -(x 0) - boundary.ix.getD 0 0 ∧
     collocation_eq_constraints result n x fpgm boundary (0 + N*26 + 1) =
      x 0 - boundary.ix.getD 0 0 ∧
     collocation_eq_constraints result n x fpgm boundary (2 + N*26) =
      -(x 1) - boundary.iz.getD 0 0 ∧
     collocation_eq_constraints result n x fpgm boundary (2 + N*26 + 1) =
      x 1 - boundary.iz.getD 0 0) ∧
    inequality_dimension N = 4 + 26*N := by
  refine ⟨fun k hk => colloc_frame N n hn x result fpgm boundary k hk,
          fun i hi => colloc_box N n hn x result fpgm boundary i hi,
          colloc_anchor N n hn x result fpgm boundary,
          ?_⟩
  unfold inequality_dimension
  omega

/-- Witness for C1 at N = 1. -/
theorem claim_C1_witness :
    (1 ≤ 1 ∧ 8 = 8*1) ∧
    ((∀ k, 4 + 26*1 ≤ k →
      collocation_eq_constraints (fun _ => 0) 8 (fun _ => 0) test_param test_boundary k =
        (fun _ : ℕ => (0:ℝ)) k) ∧
    (∀ i, i < 1 →
      collocation_eq_constraints (fun _ => 0) 8 (fun _ => 0) test_param test_boundary (0 + 14 + i*26) =
        -((fun _ : ℕ => (0:ℝ)) (2 + i*8)) - test_boundary.t_c ∧
      collocation_eq_constraints (fun _ => 0) 8 (fun _ => 0) test_param test_boundary (0 + 14 + i*26 + 1) =
        (fun _ : ℕ => (0:ℝ)) (2 + i*8) - test_boundary.t_c ∧
      collocation_eq_constraints (fun _ => 0) 8 (fun _ => 0) test_param test_boundary (2 + 14 + i*26) =
        -((fun _ : ℕ => (0:ℝ)) (3 + i*8)) - test_boundary.p_c ∧
      collocation_eq_constraints (fun _ => 0) 8 (fun _ => 0) test_param test_boundary (2 + 14 + i*26 + 1) =
        (fun _ : ℕ => (0:ℝ)) (3 + i*8) - test_boundary.p_c ∧
      collocation_eq_constraints (fun _ => 0) 8 (fun _ => 0) test_param test_boundary (4 + 14 + i*26) =
        -((fun _ : ℕ => (0:ℝ)) (4 + i*8)) - test_boundary.v_c ∧
      collocation_eq_constraints (fun _ => 0) 8 (fun _ => 0) test_param test_boundary (4 + 14 + i*26 + 1) =
        (fun _ : ℕ => (0:ℝ)) (4 + i*8) - test_boundary.v_c ∧
      collocation_eq_constraints (fun _ => 0) 8 (fun _ => 0) test_param test_boundary (6 + 14 + i*26) =
        -((fun _ : ℕ => (0:ℝ)) (5 + i*8)) - test_boundary.v_c ∧
      collocation_eq_constraints (fun _ => 0) 8 (fun _ => 0) test_param test_boundary (6 + 14 + i*26 + 1) =
        (fun _ : ℕ => (0:ℝ)) (5 + i*8) - test_boundary.v_c ∧
      collocation_eq_constraints (fun _ => 0) 8 (fun _ => 0) test_param test_boundary (8 + 14 + i*26) =
        -((fun _ : ℕ => (0:ℝ)) (6 + i*8)) - test_boundary.td_c ∧
      collocation_eq_constraints (fun _ => 0) 8 (fun _ => 0) test_param test_boundary (8 + 14 + i*26 + 1) =
        (fun _ : ℕ => (0:ℝ)) (6 + i*8) - test_boundary.td_c ∧
      collocation_eq_constraints (fun _ => 0) 8 (fun _ => 0) test_param test_boundary (10 + 14 + i*26) =
        -((fun _ : ℕ => (0:ℝ)) (7 + i*8)) - test_boundary.pd_c ∧
      collocation_eq_constraints (fun _ => 0) 8 (fun _ => 0) test_param test_boundary (10 + 14 + i*26 + 1) =
        (fun _ : ℕ => (0:ℝ)) (7 + i*8) - test_boundary.pd_c) ∧
    (collocation_eq_constraints (fun _ => 0) 8 (fun _ => 0) test_param test_boundary (0 + 1*26) =
      -((fun _ : ℕ => (0:ℝ)) 0) - test_boundary.ix.getD 0 0 ∧
     collocation_eq_constraints (fun _ => 0) 8 (fun _ => 0) test_param test_boundary (0 + 1*26 + 1) =
      (fun _ : ℕ => (0:ℝ)) 0 - test_boundary.ix.getD 0 0 ∧
     collocation_eq_constraints (fun _ => 0) 8 (fun _ => 0) test_param test_boundary (2 + 1*26) =
      -((fun _ : ℕ => (0:ℝ)) 1) - test_boundary.iz.getD 0 0 ∧
     collocation_eq_constraints (fun _ => 0) 8 (fun _ => 0) test_param test_boundary (2 + 1*26 + 1) =
      (fun _ : ℕ => (0:ℝ)) 1 - test_boundary.iz.getD 0 0) ∧
    inequality_dimension 1 = 4 + 26*1) :=
  ⟨⟨by norm_num, by norm_num⟩,
   claim_C1 1 8 (by norm_num) (by norm_num) (fun _ => 0) (fun _ => 0) test_param test_boundary⟩

/-- Claim C2: for a decision vector of length 8N with N ≥ 2 and a knot pair
(i, i+1), i ≤ N−2, the builder emits at offsets 26i + 2j and 26i + 2j + 1
the residual pair of the j-th component of the trapezoidal defect
state(i) − state(i+1) + (h/2)·(deriv(i) + deriv(i+1)), and both residuals of
pair j are ≤ 0 exactly when |defect_j| ≤ 0.01. -/
theorem claim_C2 (N n : ℕ) (hN : 2 ≤ N) (hn : n = 8*N) (x result : ℕ → ℝ)
    (fpgm : fpgm_param) (boundary : optimization_constrain)
    (i : ℕ) (hi : i ≤ N - 2) (j : ℕ) (hj : j < 7) :
    collocation_eq_constraints result n x fpgm boundary (j*2 + i*26) =
      -(x (j + 8*i) - x (j + 8*(i+1)) + fpgm.h / 2 *
        (fpgm_dynamics (x (0+8*i)) (x (1+8*i)) (x (2+8*i)) (x (3+8*i))
          (x (4+8*i)) (x (5+8*i)) (x (6+8*i)) (x (7+8*i)) fpgm ⟨j, hj⟩ +
         fpgm_dynamics (x (0+8*(i+1))) (x (1+8*(i+1))) (x (2+8*(i+1))) (x (3+8*(i+1)))
          (x (4+8*(i+1))) (x (5+8*(i+1))) (x (6+8*(i+1))) (x (7+8*(i+1))) fpgm ⟨j, hj⟩)) - 0.01 ∧
    collocation_eq_constraints result n x fpgm boundary (j*2 + i*26 + 1) =
      (x (j + 8*i) - x (j + 8*(i+1)) + fpgm.h / 2 *
        (fpgm_dynamics (x (0+8*i)) (x (1+8*i)) (x (2+8*i)) (x (3+8*i))
          (x (4+8*i)) (x (5+8*i)) (x (6+8*i)) (x (7+8*i)) fpgm ⟨j, hj⟩ +
         fpgm_dynamics (x (0+8*(i+1))) (x (1+8*(i+1))) (x (2+8*(i+1))) (x (3+8*(i+1)))
          (x (4+8*(i+1))) (x (5+8*(i+1))) (x (6+8*(i+1))) (x (7+8*(i+1))) fpgm ⟨j, hj⟩)) - 0.01 ∧
    ((collocation_eq_constraints result n x fpgm boundary (j*2 + i*26) ≤ 0 ∧
      collocation_eq_constraints result n x fpgm boundary (j*2 + i*26 + 1) ≤ 0) ↔
     |x (j + 8*i) - x (j + 8*(i+1)) + fpgm.h / 2 *
        (fpgm_dynamics (x (0+8*i)) (x (1+8*i)) (x (2+8*i)) (x (3+8*i))
          (x (4+8*i)) (x (5+8*i)) (x (6+8*i)) (x (7+8*i)) fpgm ⟨j, hj⟩ +
         fpgm_dynamics (x (0+8*(i+1))) (x (1+8*(i+1))) (x (2+8*(i+1))) (x (3+8*(i+1)))
          (x (4+8*(i+1))) (x (5+8*(i+1))) (x (6+8*(i+1))) (x (7+8*(i+1))) fpgm ⟨j, hj⟩)| ≤ 0.01) := by
  obtain ⟨h1, h2⟩ := colloc_dyn N n hn x result fpgm boundary i j (by omega) hj
  have e1 : collocation_eq_constraints result n x fpgm boundary (j*2 + i*26) =
      -(x (j + 8*i) - x (j + 8*(i+1)) + fpgm.h / 2 *
        (fpgm_dynamics (x (0+8*i)) (x (1+8*i)) (x (2+8*i)) (x (3+8*i))
          (x (4+8*i)) (x (5+8*i)) (x (6+8*i)) (x (7+8*i)) fpgm ⟨j, hj⟩ +
         fpgm_dynamics (x (0+8*(i+1))) (x (1+8*(i+1))) (x (2+8*(i+1))) (x (3+8*(i+1)))
          (x (4+8*(i+1))) (x (5+8*(i+1))) (x (6+8*(i+1))) (x (7+8*(i+1))) fpgm ⟨j, hj⟩)) - 0.01 :=
    h1
  have e2 : collocation_eq_constraints result n x fpgm boundary (j*2 + i*26 + 1) =
      (x (j + 8*i) - x (j + 8*(i+1)) + fpgm.h / 2 *
        (fpgm_dynamics (x (0+8*i)) (x (1+8*i)) (x (2+8*i)) (x (3+8*i))
          (x (4+8*i)) (x (5+8*i)) (x (6+8*i)) (x (7+8*i)) fpgm ⟨j, hj⟩ +
         fpgm_dynamics (x (0+8*(i+1))) (x (1+8*(i+1))) (x (2+8*(i+1))) (x (3+8*(i+1)))
          (x (4+8*(i+1))) (x (5+8*(i+1))) (x (6+8*(i+1))) (x (7+8*(i+1))) fpgm ⟨j, hj⟩)) - 0.01 :=
    h2
  refine ⟨e1, e2, ?_⟩
  rw [e1, e2, abs_le]
  constructor
  · rintro ⟨a, b⟩
    constructor <;> linarith
  · rintro ⟨a, b⟩
    constructor <;> linarith

/-- Witness for C2 at N = 2, i = 0, j = 0. -/
theorem claim_C2_witness :
    (2 ≤ 2 ∧ 16 = 8*2 ∧ 0 ≤ 2 - 2 ∧ 0 < 7) ∧
    ((collocation_eq_constraints (fun _ => 0) 16 (fun _ => 0) test_param test_boundary (0*2 + 0*26) ≤ 0 ∧
      collocation_eq_constraints (fun _ => 0) 16 (fun _ => 0) test_param test_boundary (0*2 + 0*26 + 1) ≤ 0) ↔
     |(fun _ : ℕ => (0:ℝ)) (0 + 8*0) - (fun _ : ℕ => (0:ℝ)) (0 + 8*(0+1)) + test_param.h / 2 *
        (fpgm_dynamics 0 0 0 0 0 0 0 0 test_param ⟨0, by norm_num⟩ +
         fpgm_dynamics 0 0 0 0 0 0 0 0 test_param ⟨0, by norm_num⟩)| ≤ 0.01) :=
  ⟨⟨by norm_num, by norm_num, by norm_num, by norm_num⟩,
   (claim_C2 2 16 (by norm_num) (by norm_num) (fun _ => 0) (fun _ => 0)
      test_param test_boundary 0 (by norm_num) 0 (by norm_num)).2.2⟩

/-- Claim C4, counterexample: with N = 1, decision vector constantly −1 and
position targets ix = iz = [−1], the first knot's position equals the
targets exactly (deviation 0, within any nonnegative tolerance τ), yet the
anchor residual at index 26 evaluates to 2 > 0; moreover a fourth anchor
residual is written at index 29 (the buffer, initialized to 7, holds 0
there), so the anchors are four residuals bounding |q| ≤ t, not two
residuals bounding |q − t| ≤ τ. -/
theorem claim_C4_counterexample :
    (fun _ : ℕ => (-1:ℝ)) 0 - cex_boundary.ix.getD 0 0 = 0 ∧
    (fun _ : ℕ => (-1:ℝ)) 1 - cex_boundary.iz.getD 0 0 = 0 ∧
    collocation_eq_constraints (fun _ => 7) 8 (fun _ => -1) test_param cex_boundary (0 + 1*26) = 2 ∧
    ¬ (collocation_eq_constraints (fun _ => 7) 8 (fun _ => -1) test_param cex_boundary (0 + 1*26) ≤ 0) ∧
    collocation_eq_constraints (fun _ => 7) 8 (fun _ => -1) test_param cex_boundary (2 + 1*26 + 1) = 0 := by
  obtain ⟨a1, a2, a3, a4⟩ :=
    colloc_anchor 1 8 (by norm_num) (fun _ => -1) (fun _ => 7) test_param cex_boundary
  refine ⟨by norm_num [cex_boundary], by norm_num [cex_boundary], ?_, ?_, ?_⟩
  · rw [a1]; norm_num [cex_boundary]
  · rw [a1]; norm_num [cex_boundary]
  · rw [a4]; norm_num [cex_boundary]

/-- Claim C4, amended: the builder appends four anchor residuals (two
symmetric pairs) after the N knot blocks; all four are ≤ 0 exactly when
|x₀| ≤ ix[0] and |z₀| ≤ iz[0] — the target value acts as a symmetric bound
on the raw coordinate, not as an equality target with a tolerance. -/
theorem claim_C4_amended (N n : ℕ) (hN : 1 ≤ N) (hn : n = 8*N) (x result : ℕ → ℝ)
    (fpgm : fpgm_param) (boundary : optimization_constrain) :
    ((collocation_eq_constraints result n x fpgm boundary (0 + N*26) ≤ 0 ∧
      collocation_eq_constraints result n x fpgm boundary (0 + N*26 + 1) ≤ 0 ∧
      collocation_eq_constraints result n x fpgm boundary (2 + N*26) ≤ 0 ∧
      collocation_eq_constraints result n x fpgm boundary (2 + N*26 + 1) ≤ 0) ↔
     (|x 0| ≤ boundary.ix.getD 0 0 ∧ |x 1| ≤ boundary.iz.getD 0 0)) := by
  obtain ⟨a1, a2, a3, a4⟩ := colloc_anchor N n hn x result fpgm boundary
  rw [a1, a2, a3, a4, abs_le, abs_le]
  constructor
  · rintro ⟨b1, b2, b3, b4⟩
    exact ⟨⟨by linarith, by linarith⟩, ⟨by linarith, by linarith⟩⟩
  · rintro ⟨⟨b1, b2⟩, ⟨b3, b4⟩⟩
    exact ⟨by linarith, by linarith, by linarith, by linarith⟩

/-- Witness for the amended C4 at N = 1. -/
theorem claim_C4_amended_witness :
    (1 ≤ 1 ∧ 8 = 8*1) ∧
    ((collocation_eq_constraints (fun _ => 0) 8 (fun _ => 0) test_param test_boundary (0 + 1*26) ≤ 0 ∧
      collocation_eq_constraints (fun _ => 0) 8 (fun _ => 0) test_param test_boundary (0 + 1*26 + 1) ≤ 0 ∧
      collocation_eq_constraints (fun _ => 0) 8 (fun _ => 0) test_param test_boundary (2 + 1*26) ≤ 0 ∧
      collocation_eq_constraints (fun _ => 0) 8 (fun _ => 0) test_param test_boundary (2 + 1*26 + 1) ≤ 0) ↔
     (|(fun _ : ℕ => (0:ℝ)) 0| ≤ test_boundary.ix.getD 0 0 ∧
      |(fun _ : ℕ => (0:ℝ)) 1| ≤ test_boundary.iz.getD 0 0)) :=
  ⟨⟨by norm_num, by norm_num⟩,
   claim_C4_amended 1 8 (by norm_num) (by norm_num) (fun _ => 0) (fun _ => 0)
     test_param test_boundary⟩

/-- Claim C3: the dynamics model returns [ẋ, ż, θ̇, φ̇, ẍ, z̈, θ̈] where
component 3 is the control input φ̇ itself, components 4-5 equal
(F_w + F_e − (0, mass·9.81)) / mass with each surface force of magnitude
½·1.225·|v_surface|²·S·(2·sin α·cos α + 2·sin²α) directed along that
surface's unit normal (the two normals indeed have unit norm), and
component 6 is the summed 2-D cross-product torque of the two surface
forces divided by the moment of inertia. -/
theorem claim_C3 (x z theta phi xdot zdot thetadot phidot : ℝ) (p : fpgm_param) :
    fpgm_dynamics x z theta phi xdot zdot thetadot phidot p =
      ![xdot, zdot, thetadot, phidot,
        ((surface_force_spec (x_w_dot p.l_w xdot zdot theta thetadot) p.s_w
            (alpha_w p.l_w theta xdot zdot thetadot)
            (-Real.sin theta, Real.cos theta)).1 +
         (surface_force_spec (x_e_dot p.l p.l_e xdot zdot theta phi thetadot phidot) p.s_e
            (alpha_e p.l p.l_e theta phi xdot zdot thetadot phidot)
            (-Real.sin (theta + phi), Real.cos (theta + phi))).1 - 0) / p.mass,
        ((surface_force_spec (x_w_dot p.l_w xdot zdot theta thetadot) p.s_w
            (alpha_w p.l_w theta xdot zdot thetadot)
            (-Real.sin theta, Real.cos theta)).2 +
         (surface_force_spec (x_e_dot p.l p.l_e xdot zdot theta phi thetadot phidot) p.s_e
            (alpha_e p.l p.l_e theta phi xdot zdot thetadot phidot)
            (-Real.sin (theta + phi), Real.cos (theta + phi))).2 - p.mass * 9.81) / p.mass,
        (two_d_cross (p.l_w, 0)
            (surface_force_spec (x_w_dot p.l_w xdot zdot theta thetadot) p.s_w
              (alpha_w p.l_w theta xdot zdot thetadot)
              (-Real.sin theta, Real.cos theta)) +
         two_d_cross (-p.l - p.l_e * Real.cos theta, -p.l + p.l_e * Real.sin theta)
            (surface_force_spec (x_e_dot p.l p.l_e xdot zdot theta phi thetadot phidot) p.s_e
              (alpha_e p.l p.l_e theta phi xdot zdot thetadot phidot)
              (-Real.sin (theta + phi), Real.cos (theta + phi)))) / p.I] ∧
    (-Real.sin theta)^2 + (Real.cos theta)^2 = 1 ∧
    (-Real.sin (theta + phi))^2 + (Real.cos (theta + phi))^2 = 1 := by
  refine ⟨?_, ?_, ?_⟩
  · funext j
    fin_cases j <;>
      simp only [fpgm_dynamics, surface_force_spec, cl, cd, two_d_cross,
        Matrix.cons_val_zero, Matrix.cons_val_one, Matrix.head_cons,
        Matrix.cons_val_succ] <;>
      norm_num
  · rw [neg_sq]
    exact Real.sin_sq_add_cos_sq theta
  · rw [neg_sq]
    exact Real.sin_sq_add_cos_sq (theta + phi)

/-- Claim C10: the dynamics model is translation invariant — two inputs that
differ only in the positions x and z produce identical derivative vectors
(the centroid positions computed from x and z are dead code). -/
theorem claim_C10 (x z x2 z2 theta phi xdot zdot thetadot phidot : ℝ) (p : fpgm_param) :
    fpgm_dynamics x z theta phi xdot zdot thetadot phidot p =
      fpgm_dynamics x2 z2 theta phi xdot zdot thetadot phidot p := rfl

/-- Claim C8: each angle of attack is a single-argument arctangent of the
ratio of centroid-velocity components, with an unguarded division.  When a
surface's forward (horizontal) centroid-velocity component is exactly zero
the divisor of that ratio is exactly zero (in IEEE arithmetic the C code's
division is undefined there; in the total real-number model the ratio
collapses to 0, so the angle of attack degenerates to the geometric angle
and ignores the vertical velocity entirely); and for a reversed flow
direction the ratio — hence the angle of attack — is unchanged, losing
quadrant information. -/
theorem claim_C8 (l l_e l_w theta phi xdot zdot thetadot phidot : ℝ)
    (hw : xdot + l_w * thetadot * Real.sin theta = 0)
    (he : xdot + l * thetadot * Real.sin theta +
      l_e * (thetadot + phidot) * Real.sin (theta + phi) = 0) :
    (x_w_dot l_w xdot zdot theta thetadot).1 = 0 ∧
    (x_e_dot l l_e xdot zdot theta phi thetadot phidot).1 = 0 ∧
    alpha_w l_w theta xdot zdot thetadot =
      theta - Real.arctan ((x_w_dot l_w xdot zdot theta thetadot).2 / 0) ∧
    alpha_e l l_e theta phi xdot zdot thetadot phidot =
      theta + phi - Real.arctan ((x_e_dot l l_e xdot zdot theta phi thetadot phidot).2 / 0) ∧
    alpha_w l_w theta xdot zdot thetadot = theta ∧
    (∀ xd zd : ℝ, alpha_w l_w theta xd zd 0 = alpha_w l_w theta (-xd) (-zd) 0) := by
  have h1 : (x_w_dot l_w xdot zdot theta thetadot).1 = 0 := hw
  have h2 : (x_e_dot l l_e xdot zdot theta phi thetadot phidot).1 = 0 := he
  refine ⟨h1, h2, ?_, ?_, ?_, ?_⟩
  · unfold alpha_w
    rw [h1]
  · unfold alpha_e
    rw [h2]
  · unfold alpha_w
    rw [h1, div_zero, Real.arctan_zero, sub_zero]
  · intro xd zd
    unfold alpha_w x_w_dot
    simp [neg_div_neg_eq]

/-- Witness for C8 at θ = 0, zero rates: both forward centroid-velocity
components vanish. -/
theorem claim_C8_witness :
    ((0:ℝ) + 0.1 * 0 * Real.sin 0 = 0 ∧
     (0:ℝ) + 0.15 * 0 * Real.sin 0 + 0.05 * (0 + 0) * Real.sin (0 + 0) = 0) ∧
    ((x_w_dot 0.1 0 3 0 0).1 = 0 ∧
     (x_e_dot 0.15 0.05 0 3 0 0 0 0).1 = 0 ∧
     alpha_w 0.1 0 0 3 0 = 0 - Real.arctan ((x_w_dot 0.1 0 3 0 0).2 / 0) ∧
     alpha_e 0.15 0.05 0 0 0 3 0 0 =
       0 + 0 - Real.arctan ((x_e_dot 0.15 0.05 0 3 0 0 0 0).2 / 0) ∧
     alpha_w 0.1 0 0 3 0 = 0 ∧
     (∀ xd zd : ℝ, alpha_w 0.1 0 xd zd 0 = alpha_w 0.1 0 (-xd) (-zd) 0)) :=
  ⟨⟨by simp, by simp⟩,
   claim_C8 0.15 0.05 0.1 0 0 0 3 0 0 (by simp) (by simp)⟩

/-- Claim C5: for a decision vector of length 8N the cost evaluator returns
h·Σ_{i<N} (state_iᵀ·Q·state_i + control_i·R·control_i) + 1e6·(|x₀ − ix[0]| +
|z₀ − iz[0]|). -/
theorem claim_C5 (N n : ℕ) (hn : n = 8*N) (x : ℕ → ℝ) (fpgm : fpgm_param)
    (boundary : optimization_constrain) :
    control_effort_objective n x fpgm boundary =
      fpgm.h * (∑ i ∈ Finset.range N,
        (Matrix.dotProduct (state_of x i) (fpgm.Q.mulVec (state_of x i)) +
          x (7+8*i) * fpgm.R * x (7+8*i))) +
      1000000 * (|x 0 - boundary.ix.getD 0 0| + |x 1 - boundary.iz.getD 0 0|) := by
  rw [control_effort_objective_eq]
  have h8 : n / 8 = N := by omega
  rw [h8]
  simp only [knot_cost]
  ring

/-- Witness for C5 at N = 1. -/
theorem claim_C5_witness :
    8 = 8*1 ∧
    control_effort_objective 8 (fun _ => 0) test_param test_boundary =
      test_param.h * (∑ i ∈ Finset.range 1,
        (Matrix.dotProduct (state_of (fun _ => 0) i)
          (test_param.Q.mulVec (state_of (fun _ => 0) i)) +
          (fun _ : ℕ => (0:ℝ)) (7+8*i) * test_param.R * (fun _ : ℕ => (0:ℝ)) (7+8*i))) +
      1000000 * (|(fun _ : ℕ => (0:ℝ)) 0 - test_boundary.ix.getD 0 0| +
        |(fun _ : ℕ => (0:ℝ)) 1 - test_boundary.iz.getD 0 0|) :=
  ⟨by norm_num, claim_C5 1 8 (by norm_num) (fun _ => 0) test_param test_boundary⟩

/-- Claim C6, counterexample: loading a guess of length 9 (not a multiple
of 8) returns false and leaves N alone, but the stored guess *is* mutated:
it changes from [] to the rejected 9-element vector. -/
theorem claim_C6_counterexample :
    (load_initial_guess ⟨[], 0⟩ (List.replicate 9 0)).2 = false ∧
    (load_initial_guess ⟨[], 0⟩ (List.replicate 9 0)).1.N = 0 ∧
    (load_initial_guess ⟨[], 0⟩ (List.replicate 9 0)).1.guess ≠ ([] : List ℝ) := by
  refine ⟨?_, ?_, ?_⟩ <;> simp [load_initial_guess]

/-- Claim C6, amended: for a guess whose length is not a multiple of 8 the
loader returns false and does not compute N, but it does not leave the
stored state unmutated — the member `guess` is overwritten with the
rejected vector before the length check. -/
theorem claim_C6_amended (s : loader_state) (x : List ℝ) (hx : x.length % 8 ≠ 0) :
    load_initial_guess s x = (⟨x, s.N⟩, false) := by
  unfold load_initial_guess
  rw [if_pos hx]

/-- Witness for the amended C6 with a length-9 guess. -/
theorem claim_C6_amended_witness :
    (List.replicate 9 (0:ℝ)).length % 8 ≠ 0 ∧
    load_initial_guess ⟨[], 5⟩ (List.replicate 9 0) = (⟨List.replicate 9 0, 5⟩, false) :=
  ⟨by norm_num, claim_C6_amended ⟨[], 5⟩ (List.replicate 9 0) (by norm_num)⟩

/-- Claim C9: with an empty stored guess the optimization driver returns the
default-initialized trajectory result — all six per-knot sequences empty —
and the result does not depend on the solver, which is never invoked. -/
theorem claim_C9 (solver solver2 : List ℝ → List ℝ) (s : loader_state)
    (hg : s.guess = []) :
    nlopt_optimization solver s = ⟨[], [], [], [], [], []⟩ ∧
    nlopt_optimization solver s = nlopt_optimization solver2 s := by
  constructor <;> simp [nlopt_optimization, hg]

/-- Witness for C9 with two different solvers. -/
theorem claim_C9_witness :
    (loader_state.mk [] 3).guess = [] ∧
    nlopt_optimization (fun v => v) ⟨[], 3⟩ = ⟨[], [], [], [], [], []⟩ ∧
    nlopt_optimization (fun v => v) ⟨[], 3⟩ =
      nlopt_optimization (fun _ => [1, 2]) ⟨[], 3⟩ :=
  ⟨rfl, claim_C9 (fun v => v) (fun _ => [1, 2]) ⟨[], 3⟩ rfl⟩

lemma cex_Q_quad (v : Fin 7 → ℝ) :
    Matrix.dotProduct v (cex_Q.mulVec v) =
      v 0 * v 0 + v 1 * v 1 + v 2 * (v 2 - 9/10 * v 3) +
      v 3 * (v 3 - 9/10 * v 2) + v 4 * v 4 + v 5 * v 5 + v 6 * v 6 := by
  simp [Matrix.dotProduct, Matrix.mulVec, cex_Q, Fin.sum_univ_seven, Matrix.of_apply]
  ring

lemma cex_Q_pos_def : quad_pos_def cex_Q := by
  intro v hv
  rw [cex_Q_quad]
  obtain ⟨a, ha⟩ := Function.ne_iff.mp hv
  fin_cases a
  · have h0 : 0 < v 0 * v 0 := mul_self_pos.mpr ha
    nlinarith [sq_nonneg (v 1), sq_nonneg (v 2 - v 3), sq_nonneg (v 2), sq_nonneg (v 3),
      sq_nonneg (v 4), sq_nonneg (v 5), sq_nonneg (v 6)]
  · have h0 : 0 < v 1 * v 1 := mul_self_pos.mpr ha
    nlinarith [sq_nonneg (v 0), sq_nonneg (v 2 - v 3), sq_nonneg (v 2), sq_nonneg (v 3),
      sq_nonneg (v 4), sq_nonneg (v 5), sq_nonneg (v 6)]
  · have h0 : 0 < v 2 * v 2 := mul_self_pos.mpr ha
    nlinarith [sq_nonneg (v 0), sq_nonneg (v 1), sq_nonneg (v 2 - v 3), sq_nonneg (v 3),
      sq_nonneg (v 4), sq_nonneg (v 5), sq_nonneg (v 6)]
  · have h0 : 0 < v 3 * v 3 := mul_self_pos.mpr ha
    nlinarith [sq_nonneg (v 0), sq_nonneg (v 1), sq_nonneg (v 2 - v 3), sq_nonneg (v 2),
      sq_nonneg (v 4), sq_nonneg (v 5), sq_nonneg (v 6)]
  · have h0 : 0 < v 4 * v 4 := mul_self_pos.mpr ha
    nlinarith [sq_nonneg (v 0), sq_nonneg (v 1), sq_nonneg (v 2 - v 3), sq_nonneg (v 2),
      sq_nonneg (v 3), sq_nonneg (v 5), sq_nonneg (v 6)]
  · have h0 : 0 < v 5 * v 5 := mul_self_pos.mpr ha
    nlinarith [sq_nonneg (v 0), sq_nonneg (v 1), sq_nonneg (v 2 - v 3), sq_nonneg (v 2),
      sq_nonneg (v 3), sq_nonneg (v 4), sq_nonneg (v 6)]
  · have h0 : 0 < v 6 * v 6 := mul_self_pos.mpr ha
    nlinarith [sq_nonneg (v 0), sq_nonneg (v 1), sq_nonneg (v 2 - v 3), sq_nonneg (v 2),
      sq_nonneg (v 3), sq_nonneg (v 4), sq_nonneg (v 5)]

lemma cex_cost_xa : control_effort_objective 8 cex_xa cex_param cex7_boundary = 1 := by
  rw [control_effort_objective_eq]
  rw [show (8:ℕ)/8 = 1 from rfl, Finset.sum_range_one]
  unfold knot_cost
  rw [cex_param, cex_Q_quad]
  norm_num [show state_of cex_xa 0 0 = 0 from rfl, show state_of cex_xa 0 1 = 0 from rfl,
    show state_of cex_xa 0 2 = 0 from rfl, show state_of cex_xa 0 3 = 1 from rfl,
    show state_of cex_xa 0 4 = 0 from rfl, show state_of cex_xa 0 5 = 0 from rfl,
    show state_of cex_xa 0 6 = 0 from rfl, show cex_xa 7 = (0:ℝ) from rfl,
    show cex_xa 0 = (0:ℝ) from rfl, show cex_xa 1 = (0:ℝ) from rfl, cex7_boundary]

lemma cex_cost_xb : control_effort_objective 8 cex_xb cex_param cex7_boundary = 7/20 := by
  rw [control_effort_objective_eq]
  rw [show (8:ℕ)/8 = 1 from rfl, Finset.sum_range_one]
  unfold knot_cost
  rw [cex_param, cex_Q_quad]
  norm_num [show state_of cex_xb 0 0 = 0 from rfl, show state_of cex_xb 0 1 = 0 from rfl,
    show state_of cex_xb 0 2 = 1/2 from rfl, show state_of cex_xb 0 3 = 1 from rfl,
    show state_of cex_xb 0 4 = 0 from rfl, show state_of cex_xb 0 5 = 0 from rfl,
    show state_of cex_xb 0 6 = 0 from rfl, show cex_xb 7 = (0:ℝ) from rfl,
    show cex_xb 0 = (0:ℝ) from rfl, show cex_xb 1 = (0:ℝ) from rfl, cex7_boundary]

/-- Claim C7, counterexample: with the positive-definite weight `cex_Q`,
R = 1 > 0 and h = 1 > 0, the two decision vectors `cex_xa` and `cex_xb`
agree on every read component except state component 2, whose magnitude
grows from 0 to 1/2, yet the cost strictly *decreases* (from 1 to 7/20):
the cost evaluator is not monotone in the magnitude of a single state
component when Q carries off-diagonal coupling. -/
theorem claim_C7_counterexample :
    quad_pos_def cex_Q ∧ 0 < cex_param.R ∧ 0 < cex_param.h ∧
    cex_xa 0 = cex_xb 0 ∧ cex_xa 1 = cex_xb 1 ∧ cex_xa 3 = cex_xb 3 ∧
    cex_xa 4 = cex_xb 4 ∧ cex_xa 5 = cex_xb 5 ∧ cex_xa 6 = cex_xb 6 ∧
    cex_xa 7 = cex_xb 7 ∧ |cex_xa 2| < |cex_xb 2| ∧
    control_effort_objective 8 cex_xb cex_param cex7_boundary <
      control_effort_objective 8 cex_xa cex_param cex7_boundary := by
  refine ⟨cex_Q_pos_def, by norm_num [cex_param], by norm_num [cex_param],
    rfl, rfl, rfl, rfl, rfl, rfl, rfl, ?_, ?_⟩
  · norm_num [cex_xa, cex_xb]
  · rw [cex_cost_xa, cex_cost_xb]
    norm_num

/-- Claim C7, amended: the cost evaluator is monotonically non-decreasing in
the magnitude of any single *control* component (all other components held
fixed) whenever R > 0 and the timestep h is nonnegative; for *state*
components monotonicity can fail when Q has off-diagonal coupling (see the
counterexample). -/
theorem claim_C7_amended (n : ℕ) (x : ℕ → ℝ) (fpgm : fpgm_param)
    (boundary : optimization_constrain) (i : ℕ) (hi : i < n / 8) (u u2 : ℝ)
    (hu : |u| ≤ |u2|) (hh : 0 ≤ fpgm.h) (hR : 0 < fpgm.R) :
    control_effort_objective n (Function.update x (7+8*i) u) fpgm boundary ≤
      control_effort_objective n (Function.update x (7+8*i) u2) fpgm boundary := by
  rw [control_effort_objective_eq, control_effort_objective_eq]
  have hp0 : ∀ w : ℝ, Function.update x (7+8*i) w 0 = x 0 := fun w =>
    Function.update_noteq (by omega) w x
  have hp1 : ∀ w : ℝ, Function.update x (7+8*i) w 1 = x 1 := fun w =>
    Function.update_noteq (by omega) w x
  have hstate : ∀ (w : ℝ) (k : ℕ),
      state_of (Function.update x (7+8*i) w) k = state_of x k := by
    intro w k
    unfold state_of
    rw [Function.update_noteq (by omega), Function.update_noteq (by omega),
        Function.update_noteq (by omega), Function.update_noteq (by omega),
        Function.update_noteq (by omega), Function.update_noteq (by omega),
        Function.update_noteq (by omega)]
  have hsum : ∀ k ∈ Finset.range (n/8),
      knot_cost fpgm (Function.update x (7+8*i) u) k ≤
        knot_cost fpgm (Function.update x (7+8*i) u2) k := by
    intro k _
    unfold knot_cost
    rw [hstate, hstate]
    by_cases hki : k = i
    · subst hki
      rw [Function.update_same, Function.update_same]
      have h2 : u * u ≤ u2 * u2 := by
        have h3 := mul_self_le_mul_self (abs_nonneg u) hu
        rwa [abs_mul_abs_self, abs_mul_abs_self] at h3
      nlinarith [hR.le, h2]
    · rw [Function.update_noteq (by omega), Function.update_noteq (by omega)]
  have hS := Finset.sum_le_sum hsum
  have hSh := mul_le_mul_of_nonneg_right hS hh
  rw [hp0, hp0, hp1, hp1]
  linarith [hSh]

/-- Witness for the amended C7: raising the control magnitude from 0 to 1
does not decrease the cost. -/
theorem claim_C7_amended_witness :
    ((0:ℕ) < 8/8 ∧ |(0:ℝ)| ≤ |(1:ℝ)| ∧ (0:ℝ) ≤ test_param.h ∧ 0 < test_param.R) ∧
    control_effort_objective 8 (Function.update (fun _ => 0) (7+8*0) (0:ℝ))
        test_param test_boundary ≤
      control_effort_objective 8 (Function.update (fun _ => 0) (7+8*0) (1:ℝ))
        test_param test_boundary :=
  ⟨⟨by norm_num, by norm_num, by norm_num [test_param], by norm_num [test_param]⟩,
   claim_C7_amended 8 (fun _ => 0) test_param test_boundary 0 (by norm_num) 0 1
     (by norm_num) (by norm_num [test_param]) (by norm_num [test_param])⟩

end fpgm_collocation

end
